import Mathlib

/-!
Verification of the audio synthesis and parameter-control engine.

Shallow embedding of the core of `src/unnamed/part_000` (the `useAudioEngine`
hook of the audio-art-expo repository): the waveform sampler
(`generateWaveform`), the loudness compensation model
(`getVolumeCompensation`), the touch-to-frequency mapping
(`calculateFrequencyFromX`), and the oscillator lifecycle controller
(`togglePlayback`, `updateFrequency`, `updateWaveType`, `updateAmplitude`,
and the debounced-restart timer).

JavaScript numbers are modelled as real numbers (`ℝ`); the special values
`NaN` and `±Infinity`, which the setters explicitly guard against, are
modelled by the sum type `JsNum`.  `Math.sin` is `Real.sin`, `Math.sign` is
`Real.sign` (both define sign(0) = 0), `Math.pow` on a positive base is
`Real.rpow`, and the JavaScript remainder `x % 1` on a nonnegative `x` is
`Int.fract x`.
-/

namespace AudioArt

noncomputable section

/-! ## Waveform sampler (`generateWaveform`, part_000 lines 196–226) -/

/-- The phase used for index `i` in `generateWaveform`:
`const t = (i / 1024) * cycles * 2 * Math.PI` with `cycles = 4`. -/
def phaseAt (i : ℕ) : ℝ := ((i : ℝ) / 1024) * 4 * 2 * Real.pi

/-- One sample of `generateWaveform` (part_000 lines 197–224): the
`switch (type)` on the waveform kind followed by
`return 128 + sample * amp * 127`.  The phases are nonnegative, so the
JavaScript `% 1` coincides with `Int.fract`.  The source reads the unused
`freq` argument nowhere inside the mapped function. -/
def waveSample (type : String) (amp : ℝ) (i : ℕ) : ℝ :=
  let t := phaseAt i
  let sample : ℝ :=
    if type = "sine" then Real.sin t
    else if type = "square" then Real.sign (Real.sin t)
    else if type = "sawtooth" then 2 * Int.fract (t / (2 * Real.pi)) - 1
    else if type = "triangle" then
      let triPhase := Int.fract (t / (2 * Real.pi))
      if triPhase < 0.5 then 4 * triPhase - 1 else 3 - 4 * triPhase
    else Real.sin t
  128 + sample * amp * 127

/-- Embedding of `generateWaveform(freq, type, amp)` (part_000 lines 196–226):
`new Array(1024).fill(0).map((_, i) => ...)`.  The `freq` parameter is
accepted but never used by the body, exactly as in the source. -/
def generateWaveform (freq : ℝ) (type : String) (amp : ℝ) : List ℝ :=
  (List.range 1024).map (waveSample type amp)

/-- The per-kind shape functions exactly as the specification's contract
words them (spec §4.1): sine `sin(t)`; square `sign(sin(t))` with
sign(0)=0; sawtooth `2*frac(t/2π) - 1`; triangle `4p-1` for `p<0.5` and
`3-4p` for `p≥0.5` with `p = frac(t/2π)`. -/
def specShape (kind : String) (t : ℝ) : ℝ :=
  if kind = "sine" then Real.sin t
  else if kind = "square" then Real.sign (Real.sin t)
  else if kind = "sawtooth" then 2 * Int.fract (t / (2 * Real.pi)) - 1
  else if kind = "triangle" then
    let p := Int.fract (t / (2 * Real.pi))
    if p < 0.5 then 4 * p - 1 else 3 - 4 * p
  else 0

/-! ## Loudness compensation model (`getVolumeCompensation`, lines 60–95) -/

/-- The `waveCompensation` lookup object of `getVolumeCompensation`
(part_000 lines 62–67) together with the `|| 1.0` default applied at
line 91. -/
def waveCompensation (waveType : String) : ℝ :=
  if waveType = "sine" then 1.0
  else if waveType = "triangle" then 0.7
  else if waveType = "sawtooth" then 0.5
  else if waveType = "square" then 0.3
  else 1.0

/-- Embedding of `getFrequencyAttenuation(freq, userAttenuation)` (part_000 lines
71–89): the four frequency bands.  `Math.pow` is `Real.rpow`; in the two
bands that use it the base `1000/freq` is positive, where the two
functions agree. -/
def getFrequencyAttenuation (freq userAttenuation : ℝ) : ℝ :=
  if freq ≤ 200 then 1.2
  else if freq ≤ 1000 then 1.0 - userAttenuation * 0.1
  else if freq ≤ 4000 then
    (1000 / freq) ^ (0.2 : ℝ) * (1000 / freq) ^ (userAttenuation * 0.6)
  else
    (1000 / freq) ^ (0.3 : ℝ) * (1000 / freq) ^ (userAttenuation * 0.8)

/-- Embedding of `getVolumeCompensation(waveType, frequency, attenuationLevel)`
(part_000 lines 60–95): `waveComp * freqAtten`. -/
def getVolumeCompensation (waveType : String) (frequency attenuationLevel : ℝ) : ℝ :=
  waveCompensation waveType * getFrequencyAttenuation frequency attenuationLevel

/-- The base factor exactly as the specification words it (spec §4.2
step 1): sine 1.0, triangle 0.7, sawtooth 0.5, square 0.3. -/
def specBaseFactor (kind : String) : ℝ :=
  if kind = "sine" then 1.0
  else if kind = "triangle" then 0.7
  else if kind = "sawtooth" then 0.5
  else if kind = "square" then 0.3
  else 0

/-- The frequency/attenuation factor exactly as the specification words
it (spec §4.2 step 2): 1.2 for f ≤ 200; `1.0 − a*0.1` for 200 < f ≤ 1000;
`(1000/f)^0.2 * (1000/f)^(a*0.6)` for 1000 < f ≤ 4000;
`(1000/f)^0.3 * (1000/f)^(a*0.8)` for f > 4000. -/
def specFreqFactor (f a : ℝ) : ℝ :=
  if f ≤ 200 then 1.2
  else if f ≤ 1000 then 1.0 - a * 0.1
  else if f ≤ 4000 then (1000 / f) ^ (0.2 : ℝ) * (1000 / f) ^ (a * 0.6)
  else (1000 / f) ^ (0.3 : ℝ) * (1000 / f) ^ (a * 0.8)

/-! ## Touch-to-frequency mapping (`calculateFrequencyFromX`, lines 876–884) -/

/-- Embedding of `calculateFrequencyFromX(x)` (part_000 lines 876–884), with the
visualizer width passed explicitly: clamp `x` to `[0, width]`, then
`exp(log 20 + (clampedX/width) * (log 20000 - log 20))`.
`handleVisualizerTouch` (lines 1037–1056) computes the same mapping. -/
def calculateFrequencyFromX (width x : ℝ) : ℝ :=
  let clampedX := max 0 (min width x)
  let logMin := Real.log 20
  let logMax := Real.log 20000
  let logFreq := logMin + (clampedX / width) * (logMax - logMin)
  Real.exp logFreq

/-! ## Oscillator lifecycle controller

The controller is a React hook; its state is a record of the `useState`
values (`isPlaying`, `frequency`, `waveType`, `amplitude`,
`highFreqAttenuation`, `audioData`) together with the `useRef` cells
(`audioContextRef`, `oscillatorRef`, `gainNodeRef`,
`waveformSwitchTimeoutRef`) and the `usingFallbackAudio` flag.  We embed
the desktop web configuration (`Platform.OS === 'web'`, not mobile
Safari), the configuration all four cited code regions execute in.

React semantics, modelled faithfully: `useRef` cells are shared mutable
state, so a callback always sees their current value; `useState` values
are captured by each render's closures, so a `setTimeout` callback armed
by `updateWaveType` reads the `frequency` / `amplitude` /
`highFreqAttenuation` values of the render in which it was armed, not the
values current when it fires.  The pending debounce timer is therefore
modelled as the new wave type together with the captured state snapshot.

Failure of the `try` block in `startWebAudioOscillator` (oscillator
creation/start, connection, gain setting) is environmental; it is modelled
by a boolean `createOk` passed to the operations that run that block. -/

/-- The oscillator node: its `type` is fixed at creation; `frequency`
is settable via `frequency.setValueAtTime`. -/
structure OscNode where
  type : String
  freq : ℝ

/-- The closure captured by the `setTimeout` in `updateWaveType`
(part_000 lines 540–548): the `newType` argument plus the render-time
values of the state variables that `startWebAudioOscillator` reads. -/
structure PendingRestart where
  newType : String
  snapFrequency : ℝ
  snapAmplitude : ℝ
  snapAttenuation : ℝ

/-- The engine state: `useState` values, `useRef` cells (`audioContext`
models whether `audioContextRef.current` is non-null, `gainNode` holds
the current gain value when `gainNodeRef.current` is non-null), and the
debounce timer. -/
structure EngineState where
  isPlaying : Bool
  frequency : ℝ
  waveType : String
  amplitude : ℝ
  highFreqAttenuation : ℝ
  audioData : List ℝ
  audioContext : Bool
  oscillator : Option OscNode
  gainNode : Option ℝ
  usingFallbackAudio : Bool
  pendingTimer : Option PendingRestart

/-- The hook's initial state (part_000 lines 9–28): not playing, 440 Hz,
sine, amplitude 0.3, attenuation 0.5, a flat 1024-sample buffer, and all
refs null. -/
def initialState : EngineState :=
  { isPlaying := false
    frequency := 440
    waveType := "sine"
    amplitude := 0.3
    highFreqAttenuation := 0.5
    audioData := List.replicate 1024 128
    audioContext := false
    oscillator := none
    gainNode := none
    usingFallbackAudio := false
    pendingTimer := none }

/-- Embedding of `shouldUseWebAudio()` (part_000 lines 31–33) in the web
configuration: `Platform.OS === 'web' && !usingFallbackAudio`. -/
def shouldUseWebAudio (s : EngineState) : Bool :=
  !s.usingFallbackAudio

/-- Embedding of `startWebAudioOscillator(waveTypeParam)` (part_000 lines 229–306),
with the render-closure values of `frequency`, `amplitude` and
`highFreqAttenuation` passed explicitly as `snapFreq`/`snapAmp`/`snapAtt`
(call sites inside the same event handler pass the current state; the
debounce timer passes its captured snapshot).  Guard: proceeds only when
`audioContextRef.current` is non-null and `oscillatorRef.current` is
null.  On success the oscillator is created with type `waveTypeParam` and
the closure frequency, and the gain is set to
`safeAmplitude * 0.8 * getVolumeCompensation(waveTypeParam, safeFreq)`
(the attenuation argument defaulting to the closure's
`highFreqAttenuation`).  Any error inside the `try` is caught and resets
`oscillatorRef.current = null` (line 301).  Success requires the gain
node to exist, since `connect(gainNodeRef.current)` throws otherwise. -/
def startWebAudioOscillator (createOk : Bool) (snapFreq snapAmp snapAtt : ℝ)
    (waveTypeParam : String) (s : EngineState) : EngineState :=
  if s.audioContext && s.oscillator.isNone then
    if createOk && s.gainNode.isSome then
      { s with
        oscillator := some ⟨waveTypeParam, snapFreq⟩
        gainNode := some (snapAmp * 0.8 *
          getVolumeCompensation waveTypeParam snapFreq snapAtt) }
    else
      { s with oscillator := none }
  else s

/-- Embedding of `stopWebAudioOscillator()` (part_000 lines 309–328): stops and
disconnects the oscillator and clears the ref; an error while stopping is
caught and the ref is cleared anyway, so the net effect on the state is
always `oscillatorRef.current = null`. -/
def stopWebAudioOscillator (s : EngineState) : EngineState :=
  { s with oscillator := none }

/-- Embedding of `updateWebAudioOscillator()` (part_000 lines 332–348), with the
render-closure values passed explicitly.  Only runs when both the
oscillator and the audio context exist; pushes the closure frequency to
the oscillator and the recomputed compensated gain to the gain node. -/
def updateWebAudioOscillator (snapFreq snapAmp snapAtt : ℝ) (snapWaveType : String)
    (s : EngineState) : EngineState :=
  match s.oscillator with
  | some osc =>
    if s.audioContext then
      { s with
        oscillator := some ⟨osc.type, snapFreq⟩
        gainNode := s.gainNode.map fun _ =>
          snapAmp * 0.8 * getVolumeCompensation snapWaveType snapFreq snapAtt }
    else s
  | none => s

/-- Embedding of `togglePlayback()` (part_000 lines 350–477), desktop web branch
(lines 442–473).  If playing: stop the oscillator and set
`isPlaying = false`.  If not playing: resume the context (a platform
no-op in the model), call `startWebAudioOscillator()` — whose failure is
caught internally — and then UNCONDITIONALLY set `isPlaying = true`
(line 466).  Finally recompute the visualization buffer from the
render-closure parameter values (line 472). -/
def togglePlayback (createOk : Bool) (s : EngineState) : EngineState :=
  let s2 :=
    if s.isPlaying then
      let s1 := if shouldUseWebAudio s then stopWebAudioOscillator s else s
      { s1 with isPlaying := false }
    else
      let s1 :=
        if shouldUseWebAudio s then
          startWebAudioOscillator createOk s.frequency s.amplitude
            s.highFreqAttenuation s.waveType s
        else s
      { s1 with isPlaying := true }
  { s2 with audioData := generateWaveform s.frequency s.waveType s.amplitude }

/-- JavaScript number arguments as the setters' validation sees them:
`isNaN(x) || !isFinite(x)` rejects `nan`, `posInf` and `negInf`. -/
inductive JsNum where
  | nan
  | posInf
  | negInf
  | num (x : ℝ)

/-- Embedding of `updateFrequency(newFreq)` (part_000 lines 505–522): reject NaN,
non-finite and out-of-range (`newFreq < 20 || newFreq > 20000`) inputs by
returning early; otherwise store the new frequency, push parameters to
the live oscillator when playing (`updateWebAudioOscillator` reads the
render closure's OLD `frequency` state value), and recompute the
visualization buffer from `newFreq` directly. -/
def updateFrequency (j : JsNum) (s : EngineState) : EngineState :=
  match j with
  | .num newFreq =>
    if newFreq < 20 ∨ newFreq > 20000 then s
    else
      let s1 := { s with frequency := newFreq }
      let s2 :=
        if shouldUseWebAudio s && s.isPlaying then
          updateWebAudioOscillator s.frequency s.amplitude
            s.highFreqAttenuation s.waveType s1
        else s1
      { s2 with audioData := generateWaveform newFreq s.waveType s.amplitude }
  | _ => s

/-- Embedding of `updateWaveType(newType)` (part_000 lines 524–554): store the new
type unconditionally; while playing (web audio), clear any pending
debounce timer, stop the current oscillator, and arm a fresh 20 ms timer
whose callback closure captures `newType` and the render-time state
values; finally recompute the visualization buffer with the new type. -/
def updateWaveType (newType : String) (s : EngineState) : EngineState :=
  let s1 := { s with waveType := newType }
  let s2 :=
    if shouldUseWebAudio s && s.isPlaying then
      { s1 with
        oscillator := none
        pendingTimer := some
          ⟨newType, s.frequency, s.amplitude, s.highFreqAttenuation⟩ }
    else s1
  { s2 with audioData := generateWaveform s.frequency newType s.amplitude }

/-- The debounce timer firing (the `setTimeout` callback of part_000
lines 540–548): resume the context (platform no-op), run
`startWebAudioOscillator(newType)` with the values captured at arm time
(React closure semantics), and clear the timer ref.  With no timer
pending nothing fires. -/
def fireTimer (createOk : Bool) (s : EngineState) : EngineState :=
  match s.pendingTimer with
  | none => s
  | some tc =>
    let s1 := startWebAudioOscillator createOk tc.snapFrequency
      tc.snapAmplitude tc.snapAttenuation tc.newType s
    { s1 with pendingTimer := none }

/-- Embedding of `updateAmplitude(newAmplitude)` (part_000 lines 556–596): reject NaN
and non-finite inputs; clamp to `[0,1]` via
`Math.max(0, Math.min(1, newAmplitude))`; store the clamped value; if the
gain node and audio context exist, push the recomputed compensated gain
(using the clamped amplitude and the render closure's wave type,
frequency and attenuation); recompute the visualization buffer. -/
def updateAmplitude (j : JsNum) (s : EngineState) : EngineState :=
  match j with
  | .num newAmplitude =>
    let clamped := max 0 (min 1 newAmplitude)
    let s1 := { s with amplitude := clamped }
    let s2 :=
      if s.gainNode.isSome && s.audioContext then
        { s1 with gainNode := some (clamped * 0.8 *
            getVolumeCompensation s.waveType s.frequency s.highFreqAttenuation) }
      else s1
    { s2 with audioData := generateWaveform s.frequency s.waveType clamped }
  | _ => s

/-! ## Helper lemmas -/

/-- Every entry of the `waveCompensation` table, including the `|| 1.0`
default, is positive. -/
lemma waveCompensation_pos (w : String) : 0 < waveCompensation w := by
  unfold waveCompensation
  split_ifs <;> norm_num

/-- For attenuation levels in `[0,1]` the frequency/attenuation factor is
positive in every band. -/
lemma getFrequencyAttenuation_pos (f a : ℝ) (ha0 : 0 ≤ a) (ha1 : a ≤ 1) :
    0 < getFrequencyAttenuation f a := by
  unfold getFrequencyAttenuation
  split_ifs with h1 h2 h3
  · norm_num
  · nlinarith
  · have hb : (0 : ℝ) < 1000 / f := by
      have : (1000 : ℝ) < f := not_le.mp h2
      exact div_pos (by norm_num) (by linarith)
    exact mul_pos (Real.rpow_pos_of_pos hb _) (Real.rpow_pos_of_pos hb _)
  · have hb : (0 : ℝ) < 1000 / f := by
      have : (1000 : ℝ) < f := not_le.mp h2
      exact div_pos (by norm_num) (by linarith)
    exact mul_pos (Real.rpow_pos_of_pos hb _) (Real.rpow_pos_of_pos hb _)

/-- For frequencies above 200 Hz the frequency/attenuation factor is
strictly decreasing in the attenuation level: the mid band is linear with
slope `-0.1`, and in the two rolloff bands the base `1000/f` lies in
`(0,1)` while the exponent grows with the attenuation. -/
lemma getFrequencyAttenuation_strictAnti (f a1 a2 : ℝ) (hf : 200 < f)
    (h : a1 < a2) :
    getFrequencyAttenuation f a2 < getFrequencyAttenuation f a1 := by
  unfold getFrequencyAttenuation
  simp only [if_neg (not_le.mpr hf)]
  by_cases h1 : f ≤ 1000
  · simp only [if_pos h1]
    linarith
  · have hb0 : (0 : ℝ) < 1000 / f := by
      have : (1000 : ℝ) < f := not_le.mp h1
      exact div_pos (by norm_num) (by linarith)
    have hb1 : 1000 / f < 1 := by
      have hf0 : (0 : ℝ) < f := by linarith [not_le.mp h1]
      exact (div_lt_one hf0).mpr (not_le.mp h1)
    simp only [if_neg h1]
    by_cases h2 : f ≤ 4000
    · simp only [if_pos h2]
      exact mul_lt_mul_of_pos_left
        (Real.rpow_lt_rpow_of_exponent_gt hb0 hb1 (by linarith))
        (Real.rpow_pos_of_pos hb0 _)
    · simp only [if_neg h2]
      exact mul_lt_mul_of_pos_left
        (Real.rpow_lt_rpow_of_exponent_gt hb0 hb1 (by linarith))
        (Real.rpow_pos_of_pos hb0 _)

/-! ## Claims about the loudness compensation model -/

/-- C4: for every kind among the four waveforms, every frequency `f > 0`
and attenuation `a ∈ [0,1]`, the compensation computed by
`getVolumeCompensation` equals the per-kind base factor
(sine 1.0, triangle 0.7, sawtooth 0.5, square 0.3) times the banded
frequency factor stated by the specification. -/
theorem getVolumeCompensation_eq_spec (f a : ℝ) (hf : 0 < f) (ha0 : 0 ≤ a)
    (ha1 : a ≤ 1) :
    getVolumeCompensation "sine" f a = specBaseFactor "sine" * specFreqFactor f a ∧
    getVolumeCompensation "square" f a = specBaseFactor "square" * specFreqFactor f a ∧
    getVolumeCompensation "sawtooth" f a = specBaseFactor "sawtooth" * specFreqFactor f a ∧
    getVolumeCompensation "triangle" f a = specBaseFactor "triangle" * specFreqFactor f a := by
  have hfa : getFrequencyAttenuation f a = specFreqFactor f a := rfl
  refine ⟨?_, ?_, ?_, ?_⟩ <;>
    simp [getVolumeCompensation, waveCompensation, specBaseFactor, hfa]

/-- Witness for C4 at kind-independent concrete inputs `f = 440`,
`a = 0.5`. -/
theorem getVolumeCompensation_eq_spec_witness :
    getVolumeCompensation "sine" 440 0.5 = specBaseFactor "sine" * specFreqFactor 440 0.5 ∧
    getVolumeCompensation "square" 440 0.5 = specBaseFactor "square" * specFreqFactor 440 0.5 ∧
    getVolumeCompensation "sawtooth" 440 0.5 = specBaseFactor "sawtooth" * specFreqFactor 440 0.5 ∧
    getVolumeCompensation "triangle" 440 0.5 = specBaseFactor "triangle" * specFreqFactor 440 0.5 :=
  getVolumeCompensation_eq_spec 440 0.5 (by norm_num) (by norm_num) (by norm_num)

/-- C5: for any fixed kind and frequency above 200 Hz the compensation is
strictly decreasing in the attenuation level, and for every frequency and
attenuation level in `[0,1]` the square wave's compensation never exceeds
the sine wave's. -/
theorem getVolumeCompensation_attenuation_props (kind : String)
    (f g a a1 a2 : ℝ) (hf : 200 < f) (h12 : a1 < a2) (ha0 : 0 ≤ a)
    (ha1 : a ≤ 1) :
    getVolumeCompensation kind f a2 < getVolumeCompensation kind f a1 ∧
    getVolumeCompensation "square" g a ≤ getVolumeCompensation "sine" g a := by
  constructor
  · exact mul_lt_mul_of_pos_left
      (getFrequencyAttenuation_strictAnti f a1 a2 hf h12)
      (waveCompensation_pos kind)
  · have hpos := getFrequencyAttenuation_pos g a ha0 ha1
    have hsq : waveCompensation "square" = 0.3 := rfl
    have hsi : waveCompensation "sine" = 1.0 := rfl
    unfold getVolumeCompensation
    rw [hsq, hsi]
    nlinarith

/-- Witness for C5 at `kind = "sawtooth"`, `f = 3000`, `g = 440`,
`a = 0.5`, `a1 = 0`, `a2 = 1`. -/
theorem getVolumeCompensation_attenuation_props_witness :
    getVolumeCompensation "sawtooth" 3000 1 < getVolumeCompensation "sawtooth" 3000 0 ∧
    getVolumeCompensation "square" 440 0.5 ≤ getVolumeCompensation "sine" 440 0.5 :=
  getVolumeCompensation_attenuation_props "sawtooth" 3000 440 0.5 0 1
    (by norm_num) (by norm_num) (by norm_num) (by norm_num)

/-! ## Claims about the touch-to-frequency mapping -/

/-- C9: for `x ∈ [0, width]` the touch-to-frequency mapping computes
`exp(ln 20 + (x/width) * (ln 20000 − ln 20))`; it sends `x = 0` to 20 Hz,
`x = width` to 20000 Hz, and `x = width/2` to `√(20·20000)`. -/
theorem calculateFrequencyFromX_spec (width x : ℝ) (hw : 0 < width)
    (hx0 : 0 ≤ x) (hxw : x ≤ width) :
    calculateFrequencyFromX width x =
      Real.exp (Real.log 20 + x / width * (Real.log 20000 - Real.log 20)) ∧
    calculateFrequencyFromX width 0 = 20 ∧
    calculateFrequencyFromX width width = 20000 ∧
    calculateFrequencyFromX width (width / 2) = Real.sqrt (20 * 20000) := by
  have hgen : ∀ y : ℝ, 0 ≤ y → y ≤ width →
      calculateFrequencyFromX width y =
        Real.exp (Real.log 20 + y / width * (Real.log 20000 - Real.log 20)) := by
    intro y hy0 hyw
    unfold calculateFrequencyFromX
    rw [min_eq_right hyw, max_eq_right hy0]
  refine ⟨hgen x hx0 hxw, ?_, ?_, ?_⟩
  · rw [hgen 0 le_rfl hw.le]
    norm_num
    exact Real.exp_log (by norm_num)
  · rw [hgen width hw.le le_rfl, div_self hw.ne']
    rw [show Real.log 20 + 1 * (Real.log 20000 - Real.log 20) = Real.log 20000 by ring]
    exact Real.exp_log (by norm_num)
  · rw [hgen (width / 2) (by linarith) (by linarith)]
    rw [show width / 2 / width = 1 / 2 by field_simp; ring]
    rw [show Real.log 20 + 1 / 2 * (Real.log 20000 - Real.log 20) =
        Real.log (20 * 20000) / 2 by
      rw [Real.log_mul (by norm_num) (by norm_num)]; ring]
    rw [← Real.log_sqrt (by norm_num : (0:ℝ) ≤ 20 * 20000)]
    exact Real.exp_log (Real.sqrt_pos.mpr (by norm_num))

/-- Witness for C9 at `width = 2`, `x = 1`. -/
theorem calculateFrequencyFromX_spec_witness :
    calculateFrequencyFromX 2 1 =
      Real.exp (Real.log 20 + 1 / 2 * (Real.log 20000 - Real.log 20)) ∧
    calculateFrequencyFromX 2 0 = 20 ∧
    calculateFrequencyFromX 2 2 = 20000 ∧
    calculateFrequencyFromX 2 (2 / 2) = Real.sqrt (20 * 20000) :=
  calculateFrequencyFromX_spec 2 1 (by norm_num) (by norm_num) (by norm_num)

/-! ## Claims about the waveform sampler -/

/-- C10: the waveform sampler's output is independent of its frequency
argument — the mapped body reads only the index and the fixed cycle
count, never `freq`. -/
theorem generateWaveform_independent_of_frequency (f1 f2 amp : ℝ)
    (kind : String) :
    generateWaveform f1 kind amp = generateWaveform f2 kind amp := rfl

/-- For each of the four kinds, the sampler's switch computes exactly the
specification's per-kind shape at the sample's phase. -/
lemma waveSample_eq_specShape (kind : String) (amp : ℝ) (i : ℕ)
    (hkind : kind = "sine" ∨ kind = "square" ∨ kind = "sawtooth" ∨
      kind = "triangle") :
    waveSample kind amp i = 128 + specShape kind (phaseAt i) * amp * 127 := by
  rcases hkind with h | h | h | h <;> subst h <;> simp [waveSample, specShape]

/-- For each of the four kinds the shape value lies in `[-1, 1]`. -/
lemma specShape_bounds (kind : String) (t : ℝ)
    (hkind : kind = "sine" ∨ kind = "square" ∨ kind = "sawtooth" ∨
      kind = "triangle") :
    -1 ≤ specShape kind t ∧ specShape kind t ≤ 1 := by
  have hfr0 := Int.fract_nonneg (t / (2 * Real.pi))
  have hfr1 := Int.fract_lt_one (t / (2 * Real.pi))
  rcases hkind with h | h | h | h <;> subst h
  · have e : specShape "sine" t = Real.sin t := by simp [specShape]
    rw [e]
    exact ⟨Real.neg_one_le_sin t, Real.sin_le_one t⟩
  · have e : specShape "square" t = Real.sign (Real.sin t) := by
      simp [specShape]
    rw [e]
    rcases lt_trichotomy (Real.sin t) 0 with hs | hs | hs
    · rw [Real.sign_of_neg hs]
      norm_num
    · rw [hs, Real.sign_zero]
      norm_num
    · rw [Real.sign_of_pos hs]
      norm_num
  · have e : specShape "sawtooth" t = 2 * Int.fract (t / (2 * Real.pi)) - 1 := by
      simp [specShape]
    rw [e]
    constructor <;> linarith
  · have e : specShape "triangle" t =
        if Int.fract (t / (2 * Real.pi)) < 0.5 then
          4 * Int.fract (t / (2 * Real.pi)) - 1
        else 3 - 4 * Int.fract (t / (2 * Real.pi)) := by
      simp [specShape]
    rw [e]
    by_cases hp : Int.fract (t / (2 * Real.pi)) < 0.5
    · rw [if_pos hp]
      constructor <;> [linarith; nlinarith]
    · rw [if_neg hp]
      push_neg at hp
      constructor <;> [nlinarith; nlinarith]

/-- A sample `128 + s·amp·127` built from a shape value `s ∈ [-1,1]` and
an amplitude in `[0,1]` lies in `[1, 255]`. -/
lemma sample_in_range (s amp : ℝ) (hs1 : -1 ≤ s) (hs2 : s ≤ 1)
    (ha0 : 0 ≤ amp) (ha1 : amp ≤ 1) :
    1 ≤ 128 + s * amp * 127 ∧ 128 + s * amp * 127 ≤ 255 := by
  have h1 : 0 ≤ (1 + s) * amp := mul_nonneg (by linarith) ha0
  have h2 : 0 ≤ (1 - s) * amp := mul_nonneg (by linarith) ha0
  constructor <;> nlinarith

/-- C1 (amended): for valid inputs (frequency in `[20, 20000]`, one of the
four kinds, amplitude in `[0,1]`) the sampler returns exactly 1024
real-valued samples, each equal to
`128 + shape(t)·amplitude·127` at phase `t = (i/1024)·4·2π` with the
specification's per-kind shape, each lying in `[1, 255]`, and the result
is deterministic in its inputs.  (The claim's further assertion that the
samples are integers is refuted separately.) -/
theorem generateWaveform_valid_output (freq amp : ℝ) (kind : String)
    (hkind : kind = "sine" ∨ kind = "square" ∨ kind = "sawtooth" ∨
      kind = "triangle")
    (hf20 : 20 ≤ freq) (hf2e4 : freq ≤ 20000) (ha0 : 0 ≤ amp)
    (ha1 : amp ≤ 1) :
    (generateWaveform freq kind amp).length = 1024 ∧
    (∀ i : ℕ, i < 1024 →
      (generateWaveform freq kind amp)[i]? =
        some (128 + specShape kind ((i : ℝ) / 1024 * 4 * 2 * Real.pi) * amp * 127)) ∧
    (∀ x ∈ generateWaveform freq kind amp, 1 ≤ x ∧ x ≤ 255) ∧
    generateWaveform freq kind amp = generateWaveform freq kind amp := by
  refine ⟨by simp [generateWaveform], ?_, ?_, rfl⟩
  · intro i hi
    rw [generateWaveform, List.getElem?_map]
    rw [show (List.range 1024)[i]? = some i by simp [List.getElem?_range, hi]]
    rw [show Option.map (waveSample kind amp) (some i) =
      some (waveSample kind amp i) from rfl]
    rw [waveSample_eq_specShape kind amp i hkind]
    rfl
  · intro x hx
    rw [generateWaveform] at hx
    simp only [List.mem_map, List.mem_range] at hx
    obtain ⟨i, _, rfl⟩ := hx
    rw [waveSample_eq_specShape kind amp i hkind]
    have hb := specShape_bounds kind (phaseAt i) hkind
    exact sample_in_range _ amp hb.1 hb.2 ha0 ha1

/-- Witness for C1 at `freq = 440`, `kind = "sine"`, `amp = 0.3`. -/
theorem generateWaveform_valid_output_witness :
    (generateWaveform 440 "sine" 0.3).length = 1024 ∧
    (∀ i : ℕ, i < 1024 →
      (generateWaveform 440 "sine" 0.3)[i]? =
        some (128 + specShape "sine" ((i : ℝ) / 1024 * 4 * 2 * Real.pi) * 0.3 * 127)) ∧
    (∀ x ∈ generateWaveform 440 "sine" 0.3, 1 ≤ x ∧ x ≤ 255) ∧
    generateWaveform 440 "sine" 0.3 = generateWaveform 440 "sine" 0.3 :=
  generateWaveform_valid_output 440 0.3 "sine" (Or.inl rfl) (by norm_num)
    (by norm_num) (by norm_num) (by norm_num)

/-- C1 counterexample: the sampler's output values are not integers.  At
frequency 440, kind `sawtooth`, amplitude 1 — a valid input triple — the
sample at index 1 is `255/128`, whose fractional part `127/128` is
nonzero, so the claim that every output value is an integer fails. -/
theorem generateWaveform_sample_not_integer :
    (generateWaveform 440 "sawtooth" 1)[1]? = some (255 / 128) ∧
    Int.fract ((255 : ℝ) / 128) = 127 / 128 ∧ ((127 : ℝ) / 128) ≠ 0 := by
  refine ⟨?_, by rw [Int.fract]; norm_num, by norm_num⟩
  rw [generateWaveform, List.getElem?_map]
  rw [show (List.range 1024)[1]? = some 1 by
    simp [List.getElem?_range]]
  rw [show Option.map (waveSample "sawtooth" 1) (some 1) =
    some (waveSample "sawtooth" 1 1) from rfl]
  have hphase : phaseAt 1 / (2 * Real.pi) = 1 / 256 := by
    unfold phaseAt
    have hpi := Real.pi_ne_zero
    field_simp
    ring
  have hfr : Int.fract ((1 : ℝ) / 256) = 1 / 256 :=
    Int.fract_eq_self.mpr ⟨by norm_num, by norm_num⟩
  rw [show waveSample "sawtooth" 1 1 =
      128 + (2 * Int.fract (phaseAt 1 / (2 * Real.pi)) - 1) * 1 * 127 by
    simp [waveSample]]
  rw [hphase, hfr]
  norm_num

/-- Witness for C10 at two distinct concrete frequencies. -/
theorem generateWaveform_independent_of_frequency_witness :
    generateWaveform 100 "sine" 0.3 = generateWaveform 5000 "sine" 0.3 :=
  generateWaveform_independent_of_frequency 100 5000 0.3 "sine"

/-! ## Claims about the lifecycle controller -/

/-- Pushing parameters to a live oscillator never changes the stored
frequency state. -/
lemma updateWebAudioOscillator_frequency (a b c : ℝ) (w : String)
    (s : EngineState) :
    (updateWebAudioOscillator a b c w s).frequency = s.frequency := by
  unfold updateWebAudioOscillator
  rcases hosc : s.oscillator with _ | osc
  · rfl
  · by_cases hctx : s.audioContext <;> simp [hctx]

/-- C6: after any `updateFrequency` call the stored frequency stays
finite and in `[20, 20000]`; NaN, non-finite and out-of-range arguments
(such as 19.9) leave the whole state unchanged, while `updateFrequency`
with 440 stores exactly 440. -/
theorem updateFrequency_spec (s : EngineState) (j : JsNum) (f : ℝ)
    (hlo : 20 ≤ s.frequency) (hhi : s.frequency ≤ 20000) :
    (20 ≤ (updateFrequency j s).frequency ∧
      (updateFrequency j s).frequency ≤ 20000) ∧
    updateFrequency JsNum.nan s = s ∧
    updateFrequency JsNum.posInf s = s ∧
    updateFrequency JsNum.negInf s = s ∧
    (f < 20 ∨ f > 20000 → updateFrequency (JsNum.num f) s = s) ∧
    updateFrequency (JsNum.num 19.9) s = s ∧
    (updateFrequency (JsNum.num 440) s).frequency = 440 := by
  have hfreq : ∀ g : ℝ, ¬(g < 20 ∨ g > 20000) →
      (updateFrequency (JsNum.num g) s).frequency = g := by
    intro g hg
    simp only [updateFrequency]
    rw [if_neg hg]
    by_cases hc : shouldUseWebAudio s && s.isPlaying
    · simp only [hc, if_true]
      rw [updateWebAudioOscillator_frequency]
    · simp [hc]
  have hrej : ∀ g : ℝ, (g < 20 ∨ g > 20000) →
      updateFrequency (JsNum.num g) s = s := by
    intro g hg
    simp only [updateFrequency]
    rw [if_pos hg]
  refine ⟨?_, rfl, rfl, rfl, hrej f, hrej 19.9 (by norm_num), ?_⟩
  · cases j with
    | num g =>
      by_cases hg : g < 20 ∨ g > 20000
      · rw [hrej g hg]
        exact ⟨hlo, hhi⟩
      · rw [hfreq g hg]
        push_neg at hg
        exact ⟨hg.1, hg.2⟩
    | nan => exact ⟨hlo, hhi⟩
    | posInf => exact ⟨hlo, hhi⟩
    | negInf => exact ⟨hlo, hhi⟩
  · exact hfreq 440 (by norm_num)

/-- Witness for C6 at the hook's initial state (frequency 440) and the
rejected argument `f = 19`. -/
theorem updateFrequency_spec_witness :
    (20 ≤ (updateFrequency JsNum.nan initialState).frequency ∧
      (updateFrequency JsNum.nan initialState).frequency ≤ 20000) ∧
    updateFrequency JsNum.nan initialState = initialState ∧
    updateFrequency JsNum.posInf initialState = initialState ∧
    updateFrequency JsNum.negInf initialState = initialState ∧
    ((19 : ℝ) < 20 ∨ (19 : ℝ) > 20000 →
      updateFrequency (JsNum.num 19) initialState = initialState) ∧
    updateFrequency (JsNum.num 19.9) initialState = initialState ∧
    (updateFrequency (JsNum.num 440) initialState).frequency = 440 :=
  updateFrequency_spec initialState JsNum.nan 19
    (by norm_num [initialState]) (by norm_num [initialState])

/-- C3 counterexample: `updateAmplitude(1.5)` is NOT rejected.  Starting
from the hook's initial state (amplitude 0.3), it stores amplitude 1, so
the stored amplitude does not remain at its prior value as the claim
asserts. -/
theorem updateAmplitude_accepts_out_of_range :
    (updateAmplitude (JsNum.num 1.5) initialState).amplitude = 1 ∧
    initialState.amplitude = 0.3 ∧ (1 : ℝ) ≠ 0.3 := by
  refine ⟨?_, rfl, by norm_num⟩
  unfold updateAmplitude initialState
  norm_num [max_def, min_def]

/-- C3 (amended): `updateAmplitude(1.5)` passes the NaN/Infinity
validation (1.5 is finite) and is clamped to exactly 1; `-0.3` is clamped
to exactly 0; `0.5` is stored as exactly 0.5; only NaN and ±Infinity are
rejected with the state left unchanged. -/
theorem updateAmplitude_clamps (s : EngineState) :
    (updateAmplitude (JsNum.num 1.5) s).amplitude = 1 ∧
    (updateAmplitude (JsNum.num (-0.3)) s).amplitude = 0 ∧
    (updateAmplitude (JsNum.num 0.5) s).amplitude = 0.5 ∧
    updateAmplitude JsNum.nan s = s ∧
    updateAmplitude JsNum.posInf s = s ∧
    updateAmplitude JsNum.negInf s = s := by
  have hamp : ∀ a : ℝ,
      (updateAmplitude (JsNum.num a) s).amplitude = max 0 (min 1 a) := by
    intro a
    unfold updateAmplitude
    by_cases hc : s.gainNode.isSome && s.audioContext <;> simp [hc]
  refine ⟨?_, ?_, ?_, rfl, rfl, rfl⟩ <;> rw [hamp] <;>
    norm_num [max_def, min_def]

/-- Witness for C3 at the hook's initial state. -/
theorem updateAmplitude_clamps_witness :
    (updateAmplitude (JsNum.num 1.5) initialState).amplitude = 1 ∧
    (updateAmplitude (JsNum.num (-0.3)) initialState).amplitude = 0 ∧
    (updateAmplitude (JsNum.num 0.5) initialState).amplitude = 0.5 ∧
    updateAmplitude JsNum.nan initialState = initialState ∧
    updateAmplitude JsNum.posInf initialState = initialState ∧
    updateAmplitude JsNum.negInf initialState = initialState :=
  updateAmplitude_clamps initialState

/-- An idle state whose audio context and gain node were initialized
successfully (the situation after `initAudio` succeeds), before any
playback. -/
def idleReadyState : EngineState :=
  { initialState with audioContext := true, gainNode := some 1 }

/-- C2: the code does NOT keep `isPlaying` false when starting the voice
fails.  From the idle ready state, `togglePlayback` whose
`startWebAudioOscillator` try-block fails (oscillator creation/start
error, caught at part_000 line 299 with the ref reset to null) still
executes `setIsPlaying(true)` at line 466: the resulting state has
`isPlaying = true` with no backing oscillator handle, contradicting the
claimed Idle outcome and the claimed consistency invariant. -/
theorem togglePlayback_failure_sets_isPlaying :
    (togglePlayback false idleReadyState).isPlaying = true ∧
    (togglePlayback false idleReadyState).oscillator = none := by
  constructor <;> rfl

/-- A running state: playing a sine voice at the default parameters, with
context and gain node live and no pending debounce timer. -/
def runningState : EngineState :=
  { initialState with
    isPlaying := true
    audioContext := true
    gainNode := some 1
    oscillator := some ⟨"sine", 440⟩ }

/-- While playing over web audio, `updateWaveType` stops the oscillator,
replaces any pending debounce timer with one capturing the new type and
the render-time parameter values, and updates the stored wave type. -/
lemma updateWaveType_running (s : EngineState) (k : String)
    (hplay : s.isPlaying = true) (hfb : s.usingFallbackAudio = false) :
    updateWaveType k s =
      { s with
        waveType := k
        oscillator := none
        pendingTimer := some ⟨k, s.frequency, s.amplitude, s.highFreqAttenuation⟩
        audioData := generateWaveform s.frequency k s.amplitude } := by
  unfold updateWaveType shouldUseWebAudio
  rw [hplay, hfb]
  rfl

/-- C7: at most one debounced restart is pending; calling
`setWaveformKind("square")` then `setWaveformKind("triangle")` within the
debounce window while running yields no oscillator until the timer fires
(so no transient `"square"` voice ever exists), exactly one restart whose
voice type is `"triangle"`, and a subsequent timer event is a no-op. -/
theorem updateWaveType_debounce_coalesces (s0 : EngineState)
    (hplay : s0.isPlaying = true) (hctx : s0.audioContext = true)
    (hfb : s0.usingFallbackAudio = false) (hgain : s0.gainNode.isSome = true) :
    (updateWaveType "square" s0).oscillator = none ∧
    (updateWaveType "triangle" (updateWaveType "square" s0)).oscillator = none ∧
    (updateWaveType "triangle" (updateWaveType "square" s0)).pendingTimer.map
      PendingRestart.newType = some "triangle" ∧
    (fireTimer true (updateWaveType "triangle"
      (updateWaveType "square" s0))).oscillator = some ⟨"triangle", s0.frequency⟩ ∧
    (fireTimer true (updateWaveType "triangle"
      (updateWaveType "square" s0))).pendingTimer = none ∧
    fireTimer true (fireTimer true (updateWaveType "triangle"
      (updateWaveType "square" s0))) =
      fireTimer true (updateWaveType "triangle" (updateWaveType "square" s0)) := by
  rw [updateWaveType_running s0 "square" hplay hfb]
  rw [show updateWaveType "triangle"
      ({ s0 with
        waveType := "square"
        oscillator := none
        pendingTimer := some ⟨"square", s0.frequency, s0.amplitude, s0.highFreqAttenuation⟩
        audioData := generateWaveform s0.frequency "square" s0.amplitude } : EngineState) =
      { s0 with
        waveType := "triangle"
        oscillator := none
        pendingTimer := some ⟨"triangle", s0.frequency, s0.amplitude, s0.highFreqAttenuation⟩
        audioData := generateWaveform s0.frequency "triangle" s0.amplitude } from
    updateWaveType_running _ "triangle" hplay hfb]
  rw [show fireTimer true
      ({ s0 with
        waveType := "triangle"
        oscillator := none
        pendingTimer := some ⟨"triangle", s0.frequency, s0.amplitude, s0.highFreqAttenuation⟩
        audioData := generateWaveform s0.frequency "triangle" s0.amplitude } : EngineState) =
      { s0 with
        waveType := "triangle"
        oscillator := some ⟨"triangle", s0.frequency⟩
        gainNode := some (s0.amplitude * 0.8 *
          getVolumeCompensation "triangle" s0.frequency s0.highFreqAttenuation)
        pendingTimer := none
        audioData := generateWaveform s0.frequency "triangle" s0.amplitude } by
    unfold fireTimer startWebAudioOscillator
    rcases hg : s0.gainNode with _ | g
    · rw [hg] at hgain
      simp at hgain
    · simp [hctx, hg]]
  refine ⟨rfl, rfl, rfl, rfl, rfl, ?_⟩
  unfold fireTimer
  rfl

/-- Witness for C7 at the concrete running state. -/
theorem updateWaveType_debounce_coalesces_witness :
    (updateWaveType "square" runningState).oscillator = none ∧
    (updateWaveType "triangle" (updateWaveType "square" runningState)).oscillator = none ∧
    (updateWaveType "triangle" (updateWaveType "square" runningState)).pendingTimer.map
      PendingRestart.newType = some "triangle" ∧
    (fireTimer true (updateWaveType "triangle"
      (updateWaveType "square" runningState))).oscillator =
        some ⟨"triangle", runningState.frequency⟩ ∧
    (fireTimer true (updateWaveType "triangle"
      (updateWaveType "square" runningState))).pendingTimer = none ∧
    fireTimer true (fireTimer true (updateWaveType "triangle"
      (updateWaveType "square" runningState))) =
      fireTimer true (updateWaveType "triangle" (updateWaveType "square" runningState)) :=
  updateWaveType_debounce_coalesces runningState rfl rfl rfl rfl

set_option maxRecDepth 4000 in
/-- C8: the debounced restart does NOT reflect parameter changes made
after the debounce was armed.  Running at 440 Hz, `updateWaveType`
to `"square"` arms the timer (its callback closure capturing the
render-time frequency 440); `updateFrequency(880)` then stores 880; when
the timer fires, the restarted voice is created with the stale captured
frequency 440, not the stored 880 the claim requires. -/
theorem updateWaveType_stale_restart :
    (fireTimer true (updateFrequency (JsNum.num 880)
      (updateWaveType "square" runningState))).frequency = 880 ∧
    (fireTimer true (updateFrequency (JsNum.num 880)
      (updateWaveType "square" runningState))).oscillator =
        some ⟨"square", 440⟩ ∧
    (440 : ℝ) ≠ 880 := by
  have h1 : updateWaveType "square" runningState =
      { runningState with
        waveType := "square"
        oscillator := none
        pendingTimer := some ⟨"square", 440, 0.3, 0.5⟩
        audioData := generateWaveform 440 "square" 0.3 } :=
    updateWaveType_running runningState "square" rfl rfl
  rw [h1]
  rw [show updateFrequency (JsNum.num 880)
      ({ runningState with
        waveType := "square"
        oscillator := none
        pendingTimer := some ⟨"square", 440, 0.3, 0.5⟩
        audioData := generateWaveform 440 "square" 0.3 } : EngineState) =
      { runningState with
        frequency := 880
        waveType := "square"
        oscillator := none
        pendingTimer := some ⟨"square", 440, 0.3, 0.5⟩
        audioData := generateWaveform 880 "square" 0.3 } by
    simp only [updateFrequency]
    rw [if_neg (by norm_num)]
    rfl]
  rw [show fireTimer true
      ({ runningState with
        frequency := 880
        waveType := "square"
        oscillator := none
        pendingTimer := some ⟨"square", 440, 0.3, 0.5⟩
        audioData := generateWaveform 880 "square" 0.3 } : EngineState) =
      { runningState with
        frequency := 880
        waveType := "square"
        oscillator := some ⟨"square", 440⟩
        gainNode := some (0.3 * 0.8 * getVolumeCompensation "square" 440 0.5)
        pendingTimer := none
        audioData := generateWaveform 880 "square" 0.3 } by
    unfold fireTimer startWebAudioOscillator
    rfl]
  exact ⟨rfl, rfl, by norm_num⟩

end

end AudioArt
